import Mathlib

/-!
Student course registration: the enrolment routes of `server.js`.

A shallow embedding of the credit-limit helper and of the four routes that read
or change a student's registration (`GET /courses`, `POST /register-course/:courseId`,
`POST /unregister-course/:courseId`, `POST /update-semester`), followed by the
properties proved about them.

The database is passed explicitly: a route takes the `Course` collection and the
document that `User.findById(req.session.user.id)` yields (`none` when there is no
such document) and returns its JSON response together with the stored document
afterwards.  The `catch` branch is modelled where a route parameter fails the
ObjectId cast; other driver exceptions are outside the model, and so is the copy of
the semester kept in the session, which none of these routes reads.
-/

namespace CourseRegistration

/-! ## JavaScript values -/

/-- A JavaScript number.  Every finite double is a rational, so finite numbers
are carried as rationals; `-0` is not told apart from `0` (both are falsy and both
have the property key "0"). -/
inductive JsNum where
  | nan
  | posInf
  | negInf
  | fin (q : ℚ)
  deriving DecidableEq

namespace JsNum

/-- The number written as an integer literal. -/
def ofInt (k : Int) : JsNum := fin k

/-- `!x` on a number: true for `NaN` and for zero. -/
def falsy : JsNum → Bool
  | nan => true
  | fin q => decide (q = 0)
  | _ => false

/-- `x < k`, false whenever `x` is `NaN`. -/
def lt (x : JsNum) (k : ℚ) : Bool :=
  match x with
  | nan => false
  | posInf => false
  | negInf => true
  | fin q => decide (q < k)

/-- `x > k`, false whenever `x` is `NaN`. -/
def gt (x : JsNum) (k : ℚ) : Bool :=
  match x with
  | nan => false
  | posInf => true
  | negInf => false
  | fin q => decide (k < q)

end JsNum

/-- A value found in a parsed request body.  Arrays and objects reach `Number`
through their string form, so they are covered by `str`. -/
inductive JsVal where
  | undefined
  | null
  | bool (b : Bool)
  | num (n : JsNum)
  | str (s : String)
  deriving DecidableEq

/-- `Number(v)`.  The conversion of a string rounds to the nearest double, so it
is kept abstract as `strToNum`. -/
def Number (strToNum : String → JsNum) : JsVal → JsNum
  | .undefined => .nan
  | .null => .fin 0
  | .bool true => .fin 1
  | .bool false => .fin 0
  | .num n => n
  | .str s => strToNum s

/-! ## Data model -/

/-- Modelled from the spec: `models/Course.js` is missing from the sources.  A
course document has an identity and an integer credit weight; the other fields
(code, name, type, semester) are not read by the routes below.  The field `_id`
holds `String(c._id)`, the string form of the document's ObjectId. -/
structure Course where
  _id : String
  credits : Nat
  deriving DecidableEq

/-- Modelled from the spec: `models/User.js` is missing from the sources.  A
student document holds the current semester (a number, `none` when the field is
absent) and the stored list of registered course ids, each in the string form of
its ObjectId. -/
structure User where
  semester : Option JsNum
  registeredCourses : List String
  deriving DecidableEq

/-- The template strings of the JSON responses, with their holes as fields:
* `unauthorized`: 'Unauthorized'
* `courseNotFound`: 'Course not found'
* `alreadyRegistered`: 'Already registered for this course'
* `creditLimitExceeded`: 'Credit limit exceeded! Maximum (creditLimit) credits allowed
  for Semester (semester). Current: (totalCredits), Adding: (adding)'
* `courseRegistered`: 'Course registered successfully'
* `courseUnregistered`: 'Course unregistered successfully'
* `invalidSemester`: 'Invalid semester value'
* `semesterUpdated`: 'Semester updated from (oldSemester) to (semester)'
* `somethingWentWrong`: 'Something went wrong. Please try again.' -/
inductive Message where
  | unauthorized
  | courseNotFound
  | alreadyRegistered
  | creditLimitExceeded (creditLimit : Nat) (semester : Option JsNum)
      (totalCredits : Nat) (adding : Nat)
  | courseRegistered
  | courseUnregistered
  | invalidSemester
  | semesterUpdated (oldSemester : Option JsNum) (semester : JsNum)
  | somethingWentWrong
  deriving DecidableEq

/-- The `data` object of a successful `/update-semester` response. -/
structure SemesterData where
  semester : JsNum
  creditLimit : Nat
  totalCredits : Nat
  remainingCredits : Int
  deriving DecidableEq

/-- A JSON response: HTTP status, `success`, `message` and optional `data`. -/
structure Response where
  status : Nat
  success : Bool
  message : Message
  data : Option SemesterData
  deriving DecidableEq

/-! ## Credit limits -/

/-- The own properties of the `CREDIT_LIMITS` object, by the integer their key
denotes. -/
def CREDIT_LIMITS : List (Int × Nat) :=
  [(1, 20), (2, 20), (3, 22), (4, 22), (5, 24), (6, 24), (7, 18), (8, 18)]

/-- The integer a semester value denotes as a property key, if any.  Only an
integer valued number can have one of the keys "1" to "8"; a non-integer number,
`NaN`, the infinities and an absent value have keys such as "2.5", "NaN",
"Infinity", "-Infinity" and "undefined". -/
def integerKey : Option JsNum → Option Int
  | some (.fin q) => if q.den = 1 then some q.num else none
  | _ => none

/-- The member access `CREDIT_LIMITS[semester]`; `none` stands for `undefined`.
The properties inherited from `Object.prototype` have names that no number and
no absent value converts to. -/
def creditLimitsAt (semester : Option JsNum) : Option Nat :=
  (integerKey semester).bind (fun k => CREDIT_LIMITS.lookup k)

/-- The expression `v || d` for `v` a number or `undefined`. -/
def orDefault (v : Option Nat) (d : Nat) : Nat :=
  match v with
  | some n => if n = 0 then d else n
  | none => d

/-- `getCreditLimit(semester)`. -/
def getCreditLimit (semester : Option JsNum) : Nat :=
  orDefault (creditLimitsAt semester) 20

/-! ## Database access -/

/-- The course document whose `_id` is the given ObjectId. -/
def docWithId (courses : List Course) (oid : String) : Option Course :=
  courses.find? (fun c => decide (c._id = oid))

/-- `Course.findById(courseId)` on a route parameter.  The library first casts the
parameter to an ObjectId: `cast courseId` is the string form of that ObjectId, or
`none` when the cast throws.  The result is `none` when the cast throws, `some none`
when no document has the id, and `some (some course)` otherwise. -/
def findById (cast : String → Option String) (courses : List Course) (courseId : String) :
    Option (Option Course) :=
  (cast courseId).map (docWithId courses)

/-- `.populate('registeredCourses')`: every stored id is replaced by its course
document; an id with no document is dropped. -/
def populate (courses : List Course) (ids : List String) : List Course :=
  ids.filterMap (docWithId courses)

/-- `docs.reduce((sum, c) => sum + c.credits, 0)`. -/
def sumCredits (docs : List Course) : Nat :=
  docs.foldl (fun sum c => sum + c.credits) 0

/-! ## Routes -/

/-- `POST /register-course/:courseId`.  The duplicate check compares the string
form of each registered id with the route parameter as it was sent; the id pushed
is the one of the document found.  The `push` followed by `save` is stored as that
id appended to the stored id list. -/
def registerCourse (cast : String → Option String) (courses : List Course)
    (stored : Option User) (courseId : String) : Response × Option User :=
  match stored with
  | none => (⟨401, false, .unauthorized, none⟩, stored)
  | some user =>
    let registered := populate courses user.registeredCourses
    match findById cast courses courseId with
    | none => (⟨500, false, .somethingWentWrong, none⟩, stored)
    | some none => (⟨404, false, .courseNotFound, none⟩, stored)
    | some (some course) =>
      if registered.any (fun c => decide (c._id = courseId)) then
        (⟨400, false, .alreadyRegistered, none⟩, stored)
      else
        let creditLimit := getCreditLimit user.semester
        let totalCredits := sumCredits registered
        let newTotal := totalCredits + course.credits
        if newTotal > creditLimit then
          (⟨400, false,
            .creditLimitExceeded creditLimit user.semester totalCredits course.credits, none⟩,
            stored)
        else
          (⟨200, true, .courseRegistered, none⟩,
            some { user with registeredCourses := user.registeredCourses ++ [course._id] })

/-- `POST /unregister-course/:courseId`. -/
def unregisterCourse (stored : Option User) (courseId : String) : Response × Option User :=
  match stored with
  | none => (⟨401, false, .unauthorized, none⟩, stored)
  | some user =>
    (⟨200, true, .courseUnregistered, none⟩,
      some { user with
        registeredCourses := user.registeredCourses.filter (fun id => decide (id ≠ courseId)) })

/-- `POST /update-semester` with `req.body.semester = body`. -/
def updateSemester (strToNum : String → JsNum) (courses : List Course) (stored : Option User)
    (body : JsVal) : Response × Option User :=
  let semester := Number strToNum body
  if semester.falsy || semester.lt 1 || semester.gt 8 then
    (⟨400, false, .invalidSemester, none⟩, stored)
  else
    match stored with
    | none => (⟨401, false, .unauthorized, none⟩, stored)
    | some user =>
      let registered := populate courses user.registeredCourses
      let oldSemester := user.semester
      let creditLimit := getCreditLimit (some semester)
      let totalCredits := sumCredits registered
      let remainingCredits : Int := (creditLimit : Int) - (totalCredits : Int)
      (⟨200, true, .semesterUpdated oldSemester semester,
          some ⟨semester, creditLimit, totalCredits, remainingCredits⟩⟩,
        some { user with semester := some semester })

/-- The locals handed to the `courses` view by `GET /courses`. -/
structure CoursesView where
  semester : JsNum
  creditLimit : Nat
  totalCredits : Nat
  remainingCredits : Int
  registeredCourses : List Course
  availableCourses : List Course
  deriving DecidableEq

/-- `user.semester || 1`. -/
def semesterOrOne : Option JsNum → JsNum
  | some n => if n.falsy then .fin 1 else n
  | none => .fin 1

/-- `Course.find().sort({ credits: -1 })`: the catalog by descending credits. -/
def findSorted (courses : List Course) : List Course :=
  courses.insertionSort (fun a b => a.credits ≥ b.credits)

/-- `GET /courses`; `none` when the student document is gone (the session is
destroyed and the browser redirected to the login page). -/
def coursesPage (courses : List Course) (stored : Option User) : Option CoursesView :=
  match stored with
  | none => none
  | some user =>
    let populated := populate courses user.registeredCourses
    let semester := semesterOrOne user.semester
    let creditLimit := orDefault (creditLimitsAt (some semester)) 20
    let allCourses := findSorted courses
    let registeredIds := populated.map (fun c => c._id)
    let registeredCourses := allCourses.filter (fun c => registeredIds.contains c._id)
    let availableCourses := allCourses.filter (fun c => !registeredIds.contains c._id)
    let totalCredits := sumCredits registeredCourses
    let remainingCredits : Int := (creditLimit : Int) - (totalCredits : Int)
    some ⟨semester, creditLimit, totalCredits, remainingCredits, registeredCourses,
      availableCourses⟩

/-- The three requests that change a student document. -/
inductive Request where
  | registerCourse (courseId : String)
  | unregisterCourse (courseId : String)
  | updateSemester (body : JsVal)

/-- Dispatch of a request to its route. -/
def handle (cast : String → Option String) (strToNum : String → JsNum)
    (courses : List Course) (stored : Option User) : Request → Response × Option User
  | .registerCourse courseId => registerCourse cast courses stored courseId
  | .unregisterCourse courseId => unregisterCourse stored courseId
  | .updateSemester body => updateSemester strToNum courses stored body

/-- The student document after a sequence of `register-course` requests, each one
applied to the document the previous one left. -/
def registerAll (cast : String → Option String) (courses : List Course)
    (stored : Option User) : List String → Option User
  | [] => stored
  | courseId :: rest =>
    registerAll cast courses (registerCourse cast courses stored courseId).2 rest

/-- The duplicate check of the register route: some populated registered course
has the route parameter as the string form of its id. -/
def isRegistered (courses : List Course) (user : User) (courseId : String) : Bool :=
  (populate courses user.registeredCourses).any (fun c => decide (c._id = courseId))

/-- The credits a student holds: the sum over the populated registration list. -/
def registeredCredits (courses : List Course) (user : User) : Nat :=
  sumCredits (populate courses user.registeredCourses)

/-- The credit bound of the data model: registered credits within the limit of
the current semester. -/
def withinLimit (courses : List Course) (user : User) : Prop :=
  registeredCredits courses user ≤ getCreditLimit user.semester

instance (courses : List Course) (user : User) : Decidable (withinLimit courses user) := by
  unfold withinLimit; infer_instance

/-! ## Sample data -/

/-- A hexadecimal digit in either case. -/
def isHexDigit (c : Char) : Bool :=
  "0123456789abcdefABCDEF".data.contains c

/-- The ObjectId cast on strings of 24 hexadecimal digits, the form every version
of the library accepts: the digits are read in either case and the string form of
the ObjectId has them in lower case. -/
def hexCast (s : String) : Option String :=
  if s.data.length = 24 && s.data.all isHexDigit then some ⟨s.data.map Char.toLower⟩
  else none

/-! The ObjectIds of the seeded courses, named after the course codes. -/

def CS101 : String := "65f0000000000000000000a0"
def CS102 : String := "65f0000000000000000000a1"
def CS103 : String := "65f0000000000000000000a2"
def CS104 : String := "65f0000000000000000000a3"
def CS105 : String := "65f0000000000000000000a4"
def EE201 : String := "65f0000000000000000000a5"
def EE202 : String := "65f0000000000000000000a6"
def ME301 : String := "65f0000000000000000000a7"
def ME302 : String := "65f0000000000000000000a8"
def CE401 : String := "65f0000000000000000000a9"
def CS151 : String := "65f0000000000000000000aa"
def CS152 : String := "65f0000000000000000000ab"
def CS153 : String := "65f0000000000000000000ac"
def EE251 : String := "65f0000000000000000000ad"
def ME351 : String := "65f0000000000000000000ae"

/-- The fifteen courses seeded by `GET /init-courses`, with their credits, under
ObjectIds named after their codes. -/
def sampleCourses : List Course :=
  [⟨CS101, 4⟩, ⟨CS102, 3⟩, ⟨CS103, 3⟩, ⟨CS104, 3⟩, ⟨CS105, 3⟩,
   ⟨EE201, 4⟩, ⟨EE202, 4⟩, ⟨ME301, 3⟩, ⟨ME302, 4⟩, ⟨CE401, 3⟩,
   ⟨CS151, 2⟩, ⟨CS152, 2⟩, ⟨CS153, 2⟩, ⟨EE251, 2⟩, ⟨ME351, 2⟩]

/-- A string conversion that recognises nothing; enough for numeric bodies. -/
def noStrings : String → JsNum := fun _ => .nan

/-- The number 2.5, in lowest terms. -/
def twoAndAHalf : ℚ := ⟨5, 2, by decide, by decide⟩

/-! ## Auxiliary facts -/

theorem integerKey_ofInt (k : Int) : integerKey (some (JsNum.ofInt k)) = some k := by
  simp [integerKey, JsNum.ofInt]

theorem lookup_outside (k : Int) (h : ¬ (1 ≤ k ∧ k ≤ 8)) : CREDIT_LIMITS.lookup k = none := by
  have h1 : (k == 1) = false := by simp; omega
  have h2 : (k == 2) = false := by simp; omega
  have h3 : (k == 3) = false := by simp; omega
  have h4 : (k == 4) = false := by simp; omega
  have h5 : (k == 5) = false := by simp; omega
  have h6 : (k == 6) = false := by simp; omega
  have h7 : (k == 7) = false := by simp; omega
  have h8 : (k == 8) = false := by simp; omega
  simp [CREDIT_LIMITS, List.lookup, h1, h2, h3, h4, h5, h6, h7, h8]

theorem fin_eq_ofInt (q : ℚ) (h : q.den = 1) : JsNum.fin q = JsNum.ofInt q.num := by
  unfold JsNum.ofInt
  rw [Rat.coe_int_num_of_den_eq_one h]

/-- C1: on the integers 1..8 getCreditLimit is the fixed table, and on every
other number and on an absent value it is 20. -/
theorem getCreditLimit_table :
    (getCreditLimit (some (.ofInt 1)) = 20 ∧ getCreditLimit (some (.ofInt 2)) = 20 ∧
      getCreditLimit (some (.ofInt 3)) = 22 ∧ getCreditLimit (some (.ofInt 4)) = 22 ∧
      getCreditLimit (some (.ofInt 5)) = 24 ∧ getCreditLimit (some (.ofInt 6)) = 24 ∧
      getCreditLimit (some (.ofInt 7)) = 18 ∧ getCreditLimit (some (.ofInt 8)) = 18) ∧
    ∀ s : Option JsNum, (∀ k : Int, 1 ≤ k → k ≤ 8 → s ≠ some (.ofInt k)) →
      getCreditLimit s = 20 := by
  refine ⟨by decide, ?_⟩
  intro s hs
  match s with
  | none => rfl
  | some .nan => rfl
  | some .posInf => rfl
  | some .negInf => rfl
  | some (.fin q) =>
    by_cases hd : q.den = 1
    · have hk : ¬ (1 ≤ q.num ∧ q.num ≤ 8) := fun hr =>
        hs q.num hr.1 hr.2 (congrArg some (fin_eq_ofInt q hd))
      simp [getCreditLimit, creditLimitsAt, integerKey, hd, lookup_outside q.num hk, orDefault]
    · simp [getCreditLimit, creditLimitsAt, integerKey, hd, orDefault]

theorem getCreditLimit_table_witness :
    (∀ k : Int, 1 ≤ k → k ≤ 8 → some (JsNum.fin twoAndAHalf) ≠ some (.ofInt k)) ∧
      getCreditLimit (some (.fin twoAndAHalf)) = 20 :=
  have h : ∀ k : Int, 1 ≤ k → k ≤ 8 → some (JsNum.fin twoAndAHalf) ≠ some (.ofInt k) := by
    intro k _ _ hk
    have hq : twoAndAHalf = (k : ℚ) := by simpa [JsNum.ofInt] using hk
    have hden := congrArg Rat.den hq
    simp [twoAndAHalf] at hden
  ⟨h, getCreditLimit_table.2 _ h⟩

theorem twoAndAHalf_eq : twoAndAHalf = 5 / 2 := by
  rw [Rat.eq_iff_mul_eq_mul]
  have h : ((5 : ℚ) / 2).den = 2 ∧ ((5 : ℚ) / 2).num = 5 := by norm_num
  simp [twoAndAHalf, h.1, h.2]

theorem sumCredits_eq (docs : List Course) :
    sumCredits docs = (docs.map (fun c => c.credits)).sum := by
  have h : ∀ (l : List Course) (acc : Nat),
      l.foldl (fun sum c => sum + c.credits) acc = acc + (l.map (fun c => c.credits)).sum := by
    intro l
    induction l with
    | nil => intro acc; simp
    | cons c l ih => intro acc; simp [ih, Nat.add_assoc]
  simpa [sumCredits] using h docs 0

theorem sumCredits_append (l₁ l₂ : List Course) :
    sumCredits (l₁ ++ l₂) = sumCredits l₁ + sumCredits l₂ := by
  simp [sumCredits_eq]

theorem docWithId_some {courses : List Course} {oid : String} {c : Course}
    (h : docWithId courses oid = some c) : c._id = oid ∧ c ∈ courses := by
  unfold docWithId at h
  exact ⟨by simpa using List.find?_some h, List.mem_of_find?_eq_some h⟩

theorem docWithId_self {courses : List Course} {oid : String} {c : Course}
    (h : docWithId courses oid = some c) : docWithId courses c._id = some c := by
  rw [(docWithId_some h).1]
  exact h

theorem findById_found {cast : String → Option String} {courses : List Course}
    {courseId : String} {course : Course}
    (h : findById cast courses courseId = some (some course)) :
    ∃ oid, cast courseId = some oid ∧ docWithId courses oid = some course := by
  unfold findById at h
  cases hc : cast courseId with
  | none => simp [hc] at h
  | some oid =>
    refine ⟨oid, rfl, ?_⟩
    simpa [hc] using h

theorem populate_append_found (courses : List Course) (ids : List String) {oid : String}
    {c : Course} (h : docWithId courses oid = some c) :
    populate courses (ids ++ [oid]) = populate courses ids ++ [c] := by
  simp [populate, List.filterMap_append, h]

theorem registerCourse_castFails (cast : String → Option String) (courses : List Course)
    (user : User) (courseId : String) (hc : cast courseId = none) :
    registerCourse cast courses (some user) courseId =
      (⟨500, false, .somethingWentWrong, none⟩, some user) := by
  simp [registerCourse, findById, hc]

theorem registerCourse_notFound (cast : String → Option String) (courses : List Course)
    (user : User) (courseId : String) {oid : String} (hc : cast courseId = some oid)
    (hd : docWithId courses oid = none) :
    registerCourse cast courses (some user) courseId =
      (⟨404, false, .courseNotFound, none⟩, some user) := by
  simp [registerCourse, findById, hc, hd]

theorem registerCourse_already (cast : String → Option String) (courses : List Course)
    (user : User) (courseId : String) {oid : String} {course : Course}
    (hc : cast courseId = some oid) (hd : docWithId courses oid = some course)
    (hreg : isRegistered courses user courseId = true) :
    registerCourse cast courses (some user) courseId =
      (⟨400, false, .alreadyRegistered, none⟩, some user) := by
  unfold isRegistered at hreg
  simp [registerCourse, findById, hc, hd, hreg]

theorem registerCourse_exceeded (cast : String → Option String) (courses : List Course)
    (user : User) (courseId : String) {oid : String} {course : Course}
    (hc : cast courseId = some oid) (hd : docWithId courses oid = some course)
    (hreg : isRegistered courses user courseId = false)
    (hgt : registeredCredits courses user + course.credits > getCreditLimit user.semester) :
    registerCourse cast courses (some user) courseId =
      (⟨400, false,
        .creditLimitExceeded (getCreditLimit user.semester) user.semester
          (registeredCredits courses user) course.credits, none⟩, some user) := by
  unfold isRegistered at hreg
  unfold registeredCredits at hgt
  simp only [registerCourse, findById, hc, hd, hreg, Option.map_some', Bool.false_eq_true,
    if_false, hgt, if_true, registeredCredits]

theorem registerCourse_ok (cast : String → Option String) (courses : List Course)
    (user : User) (courseId : String) {oid : String} {course : Course}
    (hc : cast courseId = some oid) (hd : docWithId courses oid = some course)
    (hreg : isRegistered courses user courseId = false)
    (hle : ¬ registeredCredits courses user + course.credits > getCreditLimit user.semester) :
    registerCourse cast courses (some user) courseId =
      (⟨200, true, .courseRegistered, none⟩,
        some ⟨user.semester, user.registeredCourses ++ [course._id]⟩) := by
  unfold isRegistered at hreg
  unfold registeredCredits at hle
  simp only [registerCourse, findById, hc, hd, hreg, Option.map_some', Bool.false_eq_true,
    if_false, hle]

theorem registeredCredits_append (courses : List Course) (user : User) {oid : String}
    {c : Course} (h : docWithId courses oid = some c) :
    registeredCredits courses ⟨user.semester, user.registeredCourses ++ [c._id]⟩ =
      registeredCredits courses user + c.credits := by
  simp [registeredCredits, populate_append_found courses _ (docWithId_self h),
    sumCredits_append, sumCredits]

theorem register_success_iff (cast : String → Option String) (courses : List Course)
    (user : User) (courseId : String) {oid : String} {course : Course}
    (hc : cast courseId = some oid) (hd : docWithId courses oid = some course)
    (hreg : isRegistered courses user courseId = false) :
    (registerCourse cast courses (some user) courseId).1.success = true ↔
      registeredCredits courses user + course.credits ≤ getCreditLimit user.semester := by
  by_cases hgt : registeredCredits courses user + course.credits > getCreditLimit user.semester
  · rw [registerCourse_exceeded cast courses user _ hc hd hreg hgt]
    exact ⟨fun h => (by simp at h), fun h => (by omega)⟩
  · rw [registerCourse_ok cast courses user _ hc hd hreg hgt]
    exact ⟨fun _ => (by omega), fun _ => rfl⟩

/-- When every course document's id casts to itself, a request that resolves to a
course whose id is not in the stored list passes the duplicate check. -/
theorem isRegistered_false (cast : String → Option String) (courses : List Course)
    (user : User) (courseId : String) {oid : String} {course : Course}
    (hcanon : ∀ c ∈ courses, cast c._id = some c._id)
    (hc : cast courseId = some oid) (hd : docWithId courses oid = some course)
    (hnew : course._id ∉ user.registeredCourses) :
    isRegistered courses user courseId = false := by
  cases hb : isRegistered courses user courseId with
  | false => rfl
  | true =>
    exfalso
    unfold isRegistered at hb
    simp only [List.any_eq_true, decide_eq_true_eq, populate, List.mem_filterMap] at hb
    obtain ⟨d, ⟨id, hid, hdoc⟩, hdc⟩ := hb
    obtain ⟨hdid, hdmem⟩ := docWithId_some hdoc
    have h1 : cast courseId = some courseId := by
      rw [← hdc]
      exact hcanon d hdmem
    have h2 : oid = courseId := Option.some.inj (hc.symm.trans h1)
    apply hnew
    rw [(docWithId_some hd).1, h2, ← hdc, hdid]
    exact hid

/-! ## The register route -/

/-- C2: for a request that resolves to an existing course not yet registered, the
register route succeeds exactly when the registered credits plus the candidate's
credits are at most getCreditLimit of the student's semester; so in semester 3 a
course of 4 credits on top of 18 is accepted and a course of 3 credits on top of 20
is rejected.  The ids of the course documents are string forms of ObjectIds: each
casts to itself. -/
theorem registerCourse_accepts_iff (cast : String → Option String) (courses : List Course)
    (user : User) (courseId : String) (course : Course)
    (hcanon : ∀ c ∈ courses, cast c._id = some c._id)
    (hfind : findById cast courses courseId = some (some course))
    (hnew : course._id ∉ user.registeredCourses) :
    ((registerCourse cast courses (some user) courseId).1.success = true ↔
        registeredCredits courses user + course.credits ≤ getCreditLimit user.semester) ∧
      (user.semester = some (.ofInt 3) → registeredCredits courses user = 18 →
        course.credits = 4 →
          (registerCourse cast courses (some user) courseId).1.success = true) ∧
      (user.semester = some (.ofInt 3) → registeredCredits courses user = 20 →
        course.credits = 3 →
          (registerCourse cast courses (some user) courseId).1.success = false) := by
  obtain ⟨oid, hc, hd⟩ := findById_found hfind
  have hreg := isRegistered_false cast courses user courseId hcanon hc hd hnew
  have hiff := register_success_iff cast courses user courseId hc hd hreg
  refine ⟨hiff, ?_, ?_⟩
  · intro hs ht hcr
    rw [hiff, hs, ht, hcr]
    decide
  · intro hs ht hcr
    cases hb : (registerCourse cast courses (some user) courseId).1.success with
    | false => rfl
    | true =>
      rw [hiff, hs, ht, hcr] at hb
      exact absurd hb (by decide)

/-- Scenario B of the specification: semester 3, 18 credits registered, ME302
(4 credits) requested by its id. -/
theorem registerCourse_accepts_iff_witness :
    (∀ c ∈ sampleCourses, hexCast c._id = some c._id) ∧
      findById hexCast sampleCourses ME302 = some (some ⟨ME302, 4⟩) ∧
      ME302 ∉ [CS101, EE201, EE202, CS102, CS103] ∧
      registeredCredits sampleCourses
        ⟨some (.ofInt 3), [CS101, EE201, EE202, CS102, CS103]⟩ = 18 ∧
      (registerCourse hexCast sampleCourses
        (some ⟨some (.ofInt 3), [CS101, EE201, EE202, CS102, CS103]⟩)
        ME302).1.success = true :=
  ⟨by decide, by decide, by decide, by decide,
    (registerCourse_accepts_iff hexCast sampleCourses
      ⟨some (.ofInt 3), [CS101, EE201, EE202, CS102, CS103]⟩ ME302 ⟨ME302, 4⟩
      (by decide) (by decide) (by decide)).2.1 rfl (by decide) rfl⟩

/-- C8: an accepted register request appends the id of the course it resolved to
at the end of the registration list and keeps the semester; a rejected one leaves
the stored student document exactly as it was. -/
theorem registerCourse_effect (cast : String → Option String) (courses : List Course)
    (stored : Option User) (courseId : String) :
    ((registerCourse cast courses stored courseId).1.success = true →
        ∃ user course user', stored = some user ∧
          findById cast courses courseId = some (some course) ∧
          cast courseId = some course._id ∧
          (registerCourse cast courses stored courseId).2 = some user' ∧
          user'.registeredCourses = user.registeredCourses ++ [course._id] ∧
          user'.semester = user.semester) ∧
      ((registerCourse cast courses stored courseId).1.success = false →
        (registerCourse cast courses stored courseId).2 = stored) := by
  cases stored with
  | none => exact ⟨fun h => (by simp [registerCourse] at h), fun _ => rfl⟩
  | some user =>
    cases hc : cast courseId with
    | none =>
      rw [registerCourse_castFails cast courses user _ hc]
      exact ⟨fun h => (by simp at h), fun _ => rfl⟩
    | some oid =>
      cases hd : docWithId courses oid with
      | none =>
        rw [registerCourse_notFound cast courses user _ hc hd]
        exact ⟨fun h => (by simp at h), fun _ => rfl⟩
      | some course =>
        cases hreg : isRegistered courses user courseId with
        | true =>
          rw [registerCourse_already cast courses user _ hc hd hreg]
          exact ⟨fun h => (by simp at h), fun _ => rfl⟩
        | false =>
          by_cases hgt : registeredCredits courses user + course.credits >
              getCreditLimit user.semester
          · rw [registerCourse_exceeded cast courses user _ hc hd hreg hgt]
            exact ⟨fun h => (by simp at h), fun _ => rfl⟩
          · rw [registerCourse_ok cast courses user _ hc hd hreg hgt]
            refine ⟨fun _ => ⟨user, course, _, rfl, ?_, ?_, rfl, rfl, rfl⟩,
              fun h => (by simp at h)⟩
            · simp [findById, hc, hd]
            · rw [(docWithId_some hd).1]

/-- An accepted request for CS102, sent with upper-case digits, on top of CS101 in
semester 3: the id appended is the id of the course document. -/
theorem registerCourse_effect_witness :
    (registerCourse hexCast sampleCourses (some ⟨some (.ofInt 3), [CS101]⟩)
        "65F0000000000000000000A1").1.success = true ∧
      (registerCourse hexCast sampleCourses (some ⟨some (.ofInt 3), [CS101]⟩)
        "65F0000000000000000000A1").2 = some ⟨some (.ofInt 3), [CS101, CS102]⟩ ∧
      ∃ user course user', some (⟨some (.ofInt 3), [CS101]⟩ : User) = some user ∧
        findById hexCast sampleCourses "65F0000000000000000000A1" = some (some course) ∧
        hexCast "65F0000000000000000000A1" = some course._id ∧
        (registerCourse hexCast sampleCourses (some ⟨some (.ofInt 3), [CS101]⟩)
          "65F0000000000000000000A1").2 = some user' ∧
        user'.registeredCourses = user.registeredCourses ++ [course._id] ∧
        user'.semester = user.semester :=
  ⟨by decide, by decide,
    (registerCourse_effect hexCast sampleCourses (some ⟨some (.ofInt 3), [CS101]⟩)
      "65F0000000000000000000A1").1 (by decide)⟩

/-- One register request keeps the semester and, from a student within the limit,
leaves a student within the limit. -/
theorem registerCourse_keeps (cast : String → Option String) (courses : List Course)
    (user : User) (courseId : String) (h : withinLimit courses user) :
    ∃ user', (registerCourse cast courses (some user) courseId).2 = some user' ∧
      user'.semester = user.semester ∧ withinLimit courses user' := by
  cases hc : cast courseId with
  | none =>
    rw [registerCourse_castFails cast courses user _ hc]
    exact ⟨user, rfl, rfl, h⟩
  | some oid =>
    cases hd : docWithId courses oid with
    | none =>
      rw [registerCourse_notFound cast courses user _ hc hd]
      exact ⟨user, rfl, rfl, h⟩
    | some course =>
      cases hreg : isRegistered courses user courseId with
      | true =>
        rw [registerCourse_already cast courses user _ hc hd hreg]
        exact ⟨user, rfl, rfl, h⟩
      | false =>
        by_cases hgt : registeredCredits courses user + course.credits >
            getCreditLimit user.semester
        · rw [registerCourse_exceeded cast courses user _ hc hd hreg hgt]
          exact ⟨user, rfl, rfl, h⟩
        · rw [registerCourse_ok cast courses user _ hc hd hreg hgt]
          refine ⟨_, rfl, rfl, ?_⟩
          unfold withinLimit
          rw [registeredCredits_append courses user hd]
          exact Nat.le_of_not_gt hgt

theorem registerAll_keeps (cast : String → Option String) (courses : List Course)
    (requests : List String) :
    ∀ user : User, withinLimit courses user →
      ∃ user', registerAll cast courses (some user) requests = some user' ∧
        user'.semester = user.semester ∧ withinLimit courses user' := by
  induction requests with
  | nil => intro user h; exact ⟨user, rfl, rfl, h⟩
  | cons courseId rest ih =>
    intro user h
    obtain ⟨u1, h1, hs1, hw1⟩ := registerCourse_keeps cast courses user courseId h
    obtain ⟨u2, h2, hs2, hw2⟩ := ih u1 hw1
    refine ⟨u2, ?_, hs2.trans hs1, hw2⟩
    simp only [registerAll, h1, h2]

/-- C4: starting from an empty registration list with a fixed semester, after
every sequence of register requests, and after every prefix of it, the student
still has that semester and the registered credits are at most getCreditLimit of
the semester. -/
theorem registerAll_withinLimit (cast : String → Option String) (courses : List Course)
    (semester : Option JsNum) (requests : List String) (n : Nat) :
    ∃ user, registerAll cast courses (some ⟨semester, []⟩) (requests.take n) = some user ∧
      user.semester = semester ∧
      registeredCredits courses user ≤ getCreditLimit semester := by
  have h0 : withinLimit courses ⟨semester, []⟩ := by
    simp [withinLimit, registeredCredits, populate, sumCredits]
  obtain ⟨user, hu, hs, hw⟩ :=
    registerAll_keeps cast courses (requests.take n) ⟨semester, []⟩ h0
  refine ⟨user, hu, hs, ?_⟩
  have hw' : registeredCredits courses user ≤ getCreditLimit user.semester := hw
  rwa [hs] at hw'

/-! ## The unregister route -/

/-- C7: unregistering never fails and keeps exactly the ids that differ from the
given one, in their order; so an id that is not in the list leaves the list
unchanged, a second unregistration of the same id changes nothing more, and
removing one id of a list of two distinct ids leaves the other. -/
theorem unregisterCourse_filter (user : User) (courseId : String) :
    unregisterCourse (some user) courseId =
        (⟨200, true, .courseUnregistered, none⟩,
          some ⟨user.semester, user.registeredCourses.filter (fun id => decide (id ≠ courseId))⟩) ∧
      (courseId ∉ user.registeredCourses →
        (unregisterCourse (some user) courseId).2 = some user) ∧
      (unregisterCourse (unregisterCourse (some user) courseId).2 courseId).2 =
        (unregisterCourse (some user) courseId).2 ∧
      (∀ other : String, other ≠ courseId →
        (user.registeredCourses = [courseId, other] ∨
            user.registeredCourses = [other, courseId]) →
          (unregisterCourse (some user) courseId).2 = some ⟨user.semester, [other]⟩) := by
  refine ⟨rfl, ?_, ?_, ?_⟩
  · intro hmem
    have hfilter : user.registeredCourses.filter (fun id => decide (id ≠ courseId)) =
        user.registeredCourses := by
      rw [List.filter_eq_self]
      intro id hid
      have hne : id ≠ courseId := fun heq => hmem (heq ▸ hid)
      simpa using hne
    simp only [unregisterCourse, hfilter]
  · simp only [unregisterCourse, List.filter_filter, Bool.and_self]
  · intro other hne hlist
    rcases hlist with h | h <;> simp [unregisterCourse, h, hne]

/-- Unregistering an id that is not registered, and Scenario C of the
specification. -/
theorem unregisterCourse_filter_witness :
    CS103 ∉ [CS101, CS102] ∧
      (unregisterCourse (some ⟨some (.ofInt 3), [CS101, CS102]⟩) CS103).2 =
        some ⟨some (.ofInt 3), [CS101, CS102]⟩ ∧
      (unregisterCourse (some ⟨some (.ofInt 3), [CS101, CS102]⟩) CS101).2 =
        some ⟨some (.ofInt 3), [CS102]⟩ :=
  ⟨by decide,
    (unregisterCourse_filter ⟨some (.ofInt 3), [CS101, CS102]⟩ CS103).2.1 (by decide),
    (unregisterCourse_filter ⟨some (.ofInt 3), [CS101, CS102]⟩ CS101).2.2.2 CS102
      (by decide) (Or.inl rfl)⟩

theorem registeredCredits_filter_le (courses : List Course) (user : User) (courseId : String) :
    registeredCredits courses
        ⟨user.semester, user.registeredCourses.filter (fun id => decide (id ≠ courseId))⟩ ≤
      registeredCredits courses user := by
  simp only [registeredCredits, sumCredits_eq, populate]
  apply List.Sublist.sum_le_sum
  · exact ((List.filter_sublist user.registeredCourses).filterMap _).map _
  · intro a _
    exact Nat.zero_le a

/-! ## The semester route -/

theorem guard_false_iff (n : JsNum) :
    (n.falsy || n.lt 1 || n.gt 8) = false ↔ ∃ q : ℚ, n = .fin q ∧ 1 ≤ q ∧ q ≤ 8 := by
  cases n with
  | nan => simp [JsNum.falsy]
  | posInf => simp [JsNum.falsy, JsNum.lt, JsNum.gt]
  | negInf => simp [JsNum.falsy, JsNum.lt, JsNum.gt]
  | fin q =>
    simp only [JsNum.falsy, JsNum.lt, JsNum.gt, Bool.or_eq_false_iff, decide_eq_false_iff_not,
      not_lt, JsNum.fin.injEq, exists_eq_left']
    constructor
    · rintro ⟨⟨_, h1⟩, h8⟩
      exact ⟨h1, h8⟩
    · rintro ⟨h1, h8⟩
      refine ⟨⟨?_, h1⟩, h8⟩
      intro h0
      rw [h0] at h1
      exact absurd h1 (by norm_num)

theorem updateSemester_invalid (strToNum : String → JsNum) (courses : List Course)
    (stored : Option User) (body : JsVal)
    (h : ¬ ∃ q : ℚ, Number strToNum body = .fin q ∧ 1 ≤ q ∧ q ≤ 8) :
    updateSemester strToNum courses stored body =
      (⟨400, false, .invalidSemester, none⟩, stored) := by
  have hg : ((Number strToNum body).falsy || (Number strToNum body).lt 1 ||
      (Number strToNum body).gt 8) = true := by
    cases hb : ((Number strToNum body).falsy || (Number strToNum body).lt 1 ||
        (Number strToNum body).gt 8) with
    | true => rfl
    | false => exact absurd ((guard_false_iff _).1 hb) h
  simp only [updateSemester, hg, if_true]

theorem updateSemester_valid (strToNum : String → JsNum) (courses : List Course)
    (user : User) (body : JsVal) {q : ℚ} (hq : Number strToNum body = .fin q)
    (h1 : 1 ≤ q) (h8 : q ≤ 8) :
    updateSemester strToNum courses (some user) body =
      (⟨200, true, .semesterUpdated user.semester (.fin q),
          some ⟨.fin q, getCreditLimit (some (.fin q)), registeredCredits courses user,
            (getCreditLimit (some (.fin q)) : Int) - (registeredCredits courses user : Int)⟩⟩,
        some ⟨some (.fin q), user.registeredCourses⟩) := by
  have hg : ((Number strToNum body).falsy || (Number strToNum body).lt 1 ||
      (Number strToNum body).gt 8) = false := (guard_false_iff _).2 ⟨q, hq, h1, h8⟩
  rw [hq] at hg
  simp only [updateSemester, hq, hg, registeredCredits, Bool.false_eq_true, if_false]

/-- C5, as the route decides it: update-semester accepts the submitted value
exactly when Number of it is a number between 1 and 8, integer or not; every other
value is answered 400 'Invalid semester value' and the stored student document,
its semester included, is left as it was. -/
theorem updateSemester_accepts_iff (strToNum : String → JsNum) (courses : List Course)
    (user : User) (body : JsVal) :
    ((updateSemester strToNum courses (some user) body).1.success = true ↔
        ∃ q : ℚ, Number strToNum body = .fin q ∧ 1 ≤ q ∧ q ≤ 8) ∧
      ((updateSemester strToNum courses (some user) body).1.success = false →
        updateSemester strToNum courses (some user) body =
          (⟨400, false, .invalidSemester, none⟩, some user)) := by
  by_cases h : ∃ q : ℚ, Number strToNum body = .fin q ∧ 1 ≤ q ∧ q ≤ 8
  · obtain ⟨q, hq, h1, h8⟩ := h
    rw [updateSemester_valid strToNum courses user body hq h1 h8]
    exact ⟨⟨fun _ => ⟨q, hq, h1, h8⟩, fun _ => rfl⟩, fun hf => (by simp at hf)⟩
  · rw [updateSemester_invalid strToNum courses (some user) body h]
    exact ⟨⟨fun hs => (by simp at hs), fun hv => absurd hv h⟩, fun _ => rfl⟩

/-- A missing semester in the body is rejected and nothing is stored. -/
theorem updateSemester_accepts_iff_witness :
    (updateSemester noStrings sampleCourses (some ⟨some (.ofInt 3), [CS101]⟩)
        .undefined).1.success = false ∧
      updateSemester noStrings sampleCourses (some ⟨some (.ofInt 3), [CS101]⟩) .undefined =
        (⟨400, false, .invalidSemester, none⟩, some ⟨some (.ofInt 3), [CS101]⟩) :=
  ⟨by decide,
    (updateSemester_accepts_iff noStrings sampleCourses ⟨some (.ofInt 3), [CS101]⟩
      .undefined).2 (by decide)⟩

/-- C5 fails as stated: the non-integer 2.5 passes the range check, the request
succeeds and 2.5 becomes the stored semester. -/
theorem updateSemester_accepts_fraction :
    (¬ ∃ k : Int, JsNum.fin twoAndAHalf = .ofInt k) ∧
      updateSemester noStrings sampleCourses (some ⟨some (.ofInt 3), [CS101]⟩)
          (.num (.fin twoAndAHalf)) =
        (⟨200, true, .semesterUpdated (some (.ofInt 3)) (.fin twoAndAHalf),
            some ⟨.fin twoAndAHalf, 20, 4, 16⟩⟩,
          some ⟨some (.fin twoAndAHalf), [CS101]⟩) := by
  refine ⟨?_, by decide⟩
  rintro ⟨k, hk⟩
  have hq : twoAndAHalf = (k : ℚ) := by simpa [JsNum.ofInt] using hk
  have hden := congrArg Rat.den hq
  simp [twoAndAHalf] at hden

/-- C6: for a valid new semester n, update-semester succeeds, stores n, keeps the
registration list, and returns semester n, the credit limit of n, the registered
credits as they were, and their difference as remaining credits, which is negative
when the registered credits exceed the new limit; from semester 2 to 7 with 19
credits the remaining credits are -1. -/
theorem updateSemester_data (strToNum : String → JsNum) (courses : List Course)
    (user : User) (body : JsVal) (n : Int) (h1 : 1 ≤ n) (h8 : n ≤ 8)
    (hbody : Number strToNum body = .ofInt n) :
    updateSemester strToNum courses (some user) body =
        (⟨200, true, .semesterUpdated user.semester (.ofInt n),
            some ⟨.ofInt n, getCreditLimit (some (.ofInt n)), registeredCredits courses user,
              (getCreditLimit (some (.ofInt n)) : Int) - (registeredCredits courses user : Int)⟩⟩,
          some ⟨some (.ofInt n), user.registeredCourses⟩) ∧
      registeredCredits courses ⟨some (.ofInt n), user.registeredCourses⟩ =
        registeredCredits courses user ∧
      (getCreditLimit (some (.ofInt n)) < registeredCredits courses user →
        (getCreditLimit (some (.ofInt n)) : Int) - (registeredCredits courses user : Int) < 0) ∧
      (user.semester = some (.ofInt 2) → n = 7 → registeredCredits courses user = 19 →
        (updateSemester strToNum courses (some user) body).1.success = true ∧
          (updateSemester strToNum courses (some user) body).1.data =
            some ⟨.ofInt 7, 18, 19, -1⟩) := by
  have hq1 : (1 : ℚ) ≤ (n : ℚ) := by exact_mod_cast h1
  have hq8 : (n : ℚ) ≤ 8 := by exact_mod_cast h8
  have hrun := updateSemester_valid strToNum courses user body hbody hq1 hq8
  refine ⟨hrun, rfl, ?_, ?_⟩
  · intro hlt
    omega
  · intro _ hn hc
    rw [hrun]
    subst hn
    refine ⟨rfl, ?_⟩
    show some (SemesterData.mk _ _ _ _) = _
    rw [hc]
    decide

/-- Scenario D of the specification: from semester 2 to 7 with 19 credits. -/
theorem updateSemester_data_witness :
    (1 : Int) ≤ 7 ∧ (7 : Int) ≤ 8 ∧ Number noStrings (.num (.ofInt 7)) = .ofInt 7 ∧
      updateSemester noStrings sampleCourses
          (some ⟨some (.ofInt 2), [CS101, EE201, EE202, ME302, CS102]⟩)
          (.num (.ofInt 7)) =
        (⟨200, true, .semesterUpdated (some (.ofInt 2)) (.ofInt 7),
            some ⟨.ofInt 7, 18, 19, -1⟩⟩,
          some ⟨some (.ofInt 7), [CS101, EE201, EE202, ME302, CS102]⟩) :=
  ⟨by decide, by decide, rfl,
    (updateSemester_data noStrings sampleCourses
      ⟨some (.ofInt 2), [CS101, EE201, EE202, ME302, CS102]⟩ (.num (.ofInt 7)) 7
      (by decide) (by decide) rfl).1⟩

/-! ## The credit bound and the uniqueness of ids over all requests -/

/-- C3 fails as stated: a student in semester 2 with 19 credits, within the limit
of 20, moves to semester 7; the request succeeds and leaves 19 credits against a
limit of 18.  From there an unregister request for CS151, which is not registered,
succeeds as well and still leaves 19 credits against 18. -/
theorem updateSemester_breaks_limit :
    withinLimit sampleCourses
        ⟨some (.ofInt 2), [CS101, EE201, EE202, ME302, CS102]⟩ ∧
      (handle hexCast noStrings sampleCourses
        (some ⟨some (.ofInt 2), [CS101, EE201, EE202, ME302, CS102]⟩)
        (.updateSemester (.num (.ofInt 7)))).1.success = true ∧
      (handle hexCast noStrings sampleCourses
        (some ⟨some (.ofInt 2), [CS101, EE201, EE202, ME302, CS102]⟩)
        (.updateSemester (.num (.ofInt 7)))).2 =
          some ⟨some (.ofInt 7), [CS101, EE201, EE202, ME302, CS102]⟩ ∧
      ¬ withinLimit sampleCourses
        ⟨some (.ofInt 7), [CS101, EE201, EE202, ME302, CS102]⟩ ∧
      handle hexCast noStrings sampleCourses
          (some ⟨some (.ofInt 7), [CS101, EE201, EE202, ME302, CS102]⟩)
          (.unregisterCourse CS151) =
        (⟨200, true, .courseUnregistered, none⟩,
          some ⟨some (.ofInt 7), [CS101, EE201, EE202, ME302, CS102]⟩) := by
  decide

/-- C3, as the routes decide it: after an accepted register request the registered
credits are within the limit of the student's semester; after an unregister
request they are within it whenever they were before; after an accepted semester
change, which makes no credit check, they are within the limit of the new semester
exactly when the credits registered before are. -/
theorem accepted_withinLimit (cast : String → Option String) (strToNum : String → JsNum)
    (courses : List Course) (user user' : User) (request : Request)
    (hacc : (handle cast strToNum courses (some user) request).1.success = true)
    (hafter : (handle cast strToNum courses (some user) request).2 = some user') :
    match request with
    | .registerCourse _ => withinLimit courses user'
    | .unregisterCourse _ => withinLimit courses user → withinLimit courses user'
    | .updateSemester body =>
      (withinLimit courses user' ↔
        registeredCredits courses user ≤ getCreditLimit (some (Number strToNum body))) := by
  cases request with
  | registerCourse courseId =>
    simp only [handle] at hacc hafter ⊢
    cases hc : cast courseId with
    | none =>
      rw [registerCourse_castFails cast courses user _ hc] at hacc
      simp at hacc
    | some oid =>
      cases hd : docWithId courses oid with
      | none =>
        rw [registerCourse_notFound cast courses user _ hc hd] at hacc
        simp at hacc
      | some course =>
        cases hreg : isRegistered courses user courseId with
        | true =>
          rw [registerCourse_already cast courses user _ hc hd hreg] at hacc
          simp at hacc
        | false =>
          by_cases hgt : registeredCredits courses user + course.credits >
              getCreditLimit user.semester
          · rw [registerCourse_exceeded cast courses user _ hc hd hreg hgt] at hacc
            simp at hacc
          · rw [registerCourse_ok cast courses user _ hc hd hreg hgt] at hafter
            have hu : user' = ⟨user.semester, user.registeredCourses ++ [course._id]⟩ :=
              (Option.some.inj hafter).symm
            subst hu
            unfold withinLimit
            rw [registeredCredits_append courses user hd]
            exact Nat.le_of_not_gt hgt
  | unregisterCourse courseId =>
    simp only [handle, unregisterCourse] at hafter ⊢
    have hu : user' = ⟨user.semester,
        user.registeredCourses.filter (fun id => decide (id ≠ courseId))⟩ :=
      (Option.some.inj hafter).symm
    subst hu
    intro hbefore
    exact Nat.le_trans (registeredCredits_filter_le courses user courseId) hbefore
  | updateSemester body =>
    simp only [handle] at hacc hafter ⊢
    by_cases hv : ∃ q : ℚ, Number strToNum body = .fin q ∧ 1 ≤ q ∧ q ≤ 8
    · obtain ⟨q, hq, h1, h8⟩ := hv
      rw [updateSemester_valid strToNum courses user body hq h1 h8] at hafter
      have hu : user' = ⟨some (.fin q), user.registeredCourses⟩ :=
        (Option.some.inj hafter).symm
      subst hu
      rw [hq]
      exact Iff.rfl
    · rw [updateSemester_invalid strToNum courses (some user) body hv] at hacc
      simp at hacc

/-- An accepted register request (Scenario B) ends within the limit. -/
theorem accepted_withinLimit_witness :
    (handle hexCast noStrings sampleCourses
        (some ⟨some (.ofInt 3), [CS101, EE201, EE202, CS102, CS103]⟩)
        (.registerCourse ME302)).1.success = true ∧
      (handle hexCast noStrings sampleCourses
        (some ⟨some (.ofInt 3), [CS101, EE201, EE202, CS102, CS103]⟩)
        (.registerCourse ME302)).2 =
          some ⟨some (.ofInt 3), [CS101, EE201, EE202, CS102, CS103, ME302]⟩ ∧
      withinLimit sampleCourses
        ⟨some (.ofInt 3), [CS101, EE201, EE202, CS102, CS103, ME302]⟩ :=
  ⟨by decide, by decide,
    accepted_withinLimit hexCast noStrings sampleCourses
      ⟨some (.ofInt 3), [CS101, EE201, EE202, CS102, CS103]⟩
      ⟨some (.ofInt 3), [CS101, EE201, EE202, CS102, CS103, ME302]⟩
      (.registerCourse ME302) (by decide) (by decide)⟩

/-- C9 at the failing request: a student in semester 3 holds CS101 once and asks
for it again with the id in upper-case digits.  The cast finds the course, the
duplicate check compares the lower-case string form of the registered id with the
parameter as sent and does not match, the credit check passes, and the id is
stored a second time: the request is answered 200 'Course registered successfully'
instead of 400 'Already registered for this course' and the stored list, whose ids
were pairwise distinct, no longer has pairwise distinct ids. -/
theorem registerCourse_stores_duplicate :
    [CS101].Nodup ∧
      findById hexCast sampleCourses "65F0000000000000000000A0" = some (some ⟨CS101, 4⟩) ∧
      isRegistered sampleCourses ⟨some (.ofInt 3), [CS101]⟩ "65F0000000000000000000A0" =
        false ∧
      isRegistered sampleCourses ⟨some (.ofInt 3), [CS101]⟩ CS101 = true ∧
      handle hexCast noStrings sampleCourses (some ⟨some (.ofInt 3), [CS101]⟩)
          (.registerCourse "65F0000000000000000000A0") =
        (⟨200, true, .courseRegistered, none⟩, some ⟨some (.ofInt 3), [CS101, CS101]⟩) ∧
      ¬ [CS101, CS101].Nodup := by
  decide

/-! ## The courses page against the register route -/

theorem page_limit (semester : Option JsNum) :
    orDefault (creditLimitsAt (some (semesterOrOne semester))) 20 = getCreditLimit semester := by
  match semester with
  | none => rfl
  | some .nan => rfl
  | some .posInf => rfl
  | some .negInf => rfl
  | some (.fin q) =>
    by_cases hq : q = 0
    · subst hq
      decide
    · simp [semesterOrOne, JsNum.falsy, hq, getCreditLimit]

theorem docWithId_mem (courses : List Course) (hcat : (courses.map (fun c => c._id)).Nodup)
    {c : Course} (hc : c ∈ courses) : docWithId courses c._id = some c := by
  cases hf : docWithId courses c._id with
  | none =>
    unfold docWithId at hf
    rw [List.find?_eq_none] at hf
    exact absurd (by simp) (hf c hc)
  | some d =>
    obtain ⟨hid, hd⟩ := docWithId_some hf
    rw [List.inj_on_of_nodup_map hcat hd hc hid]

theorem populate_perm (courses : List Course) (ids : List String) (hreg : ids.Nodup)
    (hcat : (courses.map (fun c => c._id)).Nodup) :
    List.Perm
      ((findSorted courses).filter
        (fun c => ((populate courses ids).map (fun d => d._id)).contains c._id))
      (populate courses ids) := by
  have hP : (populate courses ids).Nodup := by
    apply List.Nodup.filterMap _ hreg
    intro a a' b hb hb'
    rw [← (docWithId_some (Option.mem_def.1 hb)).1, ← (docWithId_some (Option.mem_def.1 hb')).1]
  have hS : (findSorted courses).Nodup :=
    (List.perm_insertionSort _ courses).nodup_iff.2 (List.Nodup.of_map _ hcat)
  refine (List.perm_ext_iff_of_nodup (hS.filter _) hP).2 (fun c => ?_)
  have hsorted : c ∈ findSorted courses ↔ c ∈ courses :=
    (List.perm_insertionSort _ courses).mem_iff
  simp only [List.mem_filter, hsorted, List.contains, List.elem_eq_mem, List.mem_map,
    decide_eq_true_eq]
  constructor
  · rintro ⟨hc, d, hd, hdc⟩
    obtain ⟨id, _, hfind⟩ := List.mem_filterMap.1 hd
    have hdmem := (docWithId_some hfind).2
    rw [← List.inj_on_of_nodup_map hcat hdmem hc hdc]
    exact hd
  · intro hc
    obtain ⟨id, _, hfind⟩ := List.mem_filterMap.1 hc
    exact ⟨(docWithId_some hfind).2, c, hc, rfl⟩

theorem page_total (courses : List Course) (ids : List String) (hreg : ids.Nodup)
    (hcat : (courses.map (fun c => c._id)).Nodup) :
    sumCredits ((findSorted courses).filter
        (fun c => ((populate courses ids).map (fun d => d._id)).contains c._id)) =
      sumCredits (populate courses ids) := by
  rw [sumCredits_eq, sumCredits_eq]
  exact ((populate_perm courses ids hreg hcat).map _).sum_eq

/-- C10: when the registered ids are pairwise distinct (and the course documents
have pairwise distinct ids, each the string form of an ObjectId, which casts to
itself), the credit limit and the total credits shown by the courses page are the
ones the register route computes, and a catalog course that is not registered is
accepted by the register route exactly when its credits are at most the remaining
credits shown on the page. -/
theorem coursesPage_agrees (cast : String → Option String) (courses : List Course)
    (user : User) (hreg : user.registeredCourses.Nodup)
    (hcat : (courses.map (fun c => c._id)).Nodup)
    (hcanon : ∀ c ∈ courses, cast c._id = some c._id) :
    ∃ view, coursesPage courses (some user) = some view ∧
      view.creditLimit = getCreditLimit user.semester ∧
      view.totalCredits = registeredCredits courses user ∧
      view.remainingCredits =
        (getCreditLimit user.semester : Int) - (registeredCredits courses user : Int) ∧
      ∀ course ∈ courses, course._id ∉ user.registeredCourses →
        ((registerCourse cast courses (some user) course._id).1.success = true ↔
          (course.credits : Int) ≤ view.remainingCredits) := by
  have hl := page_limit user.semester
  have ht := page_total courses user.registeredCourses hreg hcat
  refine ⟨_, rfl, hl, ht, ?_, ?_⟩
  · show ((orDefault (creditLimitsAt (some (semesterOrOne user.semester))) 20 : Nat) : Int) -
        ((sumCredits ((findSorted courses).filter (fun c =>
          ((populate courses user.registeredCourses).map (fun d => d._id)).contains c._id)) :
            Nat) : Int) = _
    rw [hl, ht]
    rfl
  · intro course hc hnew
    have hd := docWithId_mem courses hcat hc
    have hcast := hcanon course hc
    rw [register_success_iff cast courses user course._id hcast hd
      (isRegistered_false cast courses user course._id hcanon hcast hd hnew)]
    show _ ↔ (course.credits : Int) ≤
      ((orDefault (creditLimitsAt (some (semesterOrOne user.semester))) 20 : Nat) : Int) -
        ((sumCredits ((findSorted courses).filter (fun c =>
          ((populate courses user.registeredCourses).map (fun d => d._id)).contains c._id)) :
            Nat) : Int)
    rw [hl, ht]
    unfold registeredCredits
    omega

/-- The page of a student in semester 3 holding CS101 and CS151 over the seeded
catalog: limit 22, total 6, 16 credits remaining. -/
theorem coursesPage_agrees_witness :
    [CS101, CS151].Nodup ∧ (sampleCourses.map (fun c => c._id)).Nodup ∧
      (∀ c ∈ sampleCourses, hexCast c._id = some c._id) ∧
      (∃ view, coursesPage sampleCourses (some ⟨some (.ofInt 3), [CS101, CS151]⟩) =
          some view ∧ view.creditLimit = 22 ∧ view.totalCredits = 6 ∧
          view.remainingCredits = 16) ∧
      ∃ view, coursesPage sampleCourses (some ⟨some (.ofInt 3), [CS101, CS151]⟩) =
          some view ∧
        view.creditLimit = getCreditLimit (some (.ofInt 3)) ∧
        view.totalCredits =
          registeredCredits sampleCourses ⟨some (.ofInt 3), [CS101, CS151]⟩ ∧
        view.remainingCredits = (getCreditLimit (some (.ofInt 3)) : Int) -
          (registeredCredits sampleCourses ⟨some (.ofInt 3), [CS101, CS151]⟩ : Int) ∧
        ∀ course ∈ sampleCourses, course._id ∉ [CS101, CS151] →
          ((registerCourse hexCast sampleCourses (some ⟨some (.ofInt 3), [CS101, CS151]⟩)
              course._id).1.success = true ↔
            (course.credits : Int) ≤ view.remainingCredits) :=
  ⟨by decide, by decide, by decide, ⟨_, rfl, by decide, by decide, by decide⟩,
    coursesPage_agrees hexCast sampleCourses ⟨some (.ofInt 3), [CS101, CS151]⟩
      (by decide) (by decide) (by decide)⟩

end CourseRegistration
